import Mathlib

/-!
Verification development for the wiki crawler
(`src/Information/wiki_crawler.py`, class `Wiki_Crawler`).

The crawler is shallowly embedded: the HTML document tree produced by the
external parser is a rose tree of element/text nodes, the external world
(HTTP transport, URL resolution, filesystem write outcomes) is a record of
functions, and each Python method becomes a Lean function on an explicit
`CrawlState`.  The Python `set` `visited_urls` is modelled as its ordered
membership list (insertion adds at the tail when absent), `deque` as a
list popped at the head and extended at the tail.  Fetch attempts,
successful record writes and checkpoint writes are logged in the state so
that temporal properties of a run can be stated.
-/

namespace WikiCrawler

mutual
/-- A node of the parsed document: either a tag element (with its tag name,
optional id attribute, class list, optional href attribute and children) or
a bare text node (a `NavigableString` in the source's parser). -/
inductive Node where
  | elem (name : String) (idAttr : Option String) (classes : List String)
      (href : Option String) (children : NodeList)
  | text (s : String)
/-- A sequence of sibling document nodes (a document forest). -/
inductive NodeList where
  | nil
  | cons (n : Node) (ns : NodeList)
end

/-- Build a `NodeList` from a plain list of nodes. -/
def nlist : List Node → NodeList
  | [] => .nil
  | n :: ns => .cons n (nlist ns)

/-- Concatenation of two sibling sequences. -/
def nlAppend : NodeList → NodeList → NodeList
  | .nil, ys => ys
  | .cons x xs, ys => .cons x (nlAppend xs ys)

mutual
/-- Text content of one node (`element.text` / `get_text()` in the
source's parser): the concatenation of all descendant strings in document
order. -/
def nodeText : Node → String
  | .text s => s
  | .elem _ _ _ _ cs => textList cs
/-- Concatenated text of a sequence of sibling nodes, in document order. -/
def textList : NodeList → String
  | .nil => ""
  | .cons n ns => nodeText n ++ textList ns
end

/-- Direct children of a node (`element.children` in the source). -/
def nodeChildren : Node → NodeList
  | .text _ => .nil
  | .elem _ _ _ _ cs => cs

mutual
/-- First matching node of the subtree rooted at one node, in document
(pre-)order: the node itself before its descendants. -/
def findFirstNode (p : Node → Bool) : Node → Option Node
  | .text s => if p (.text s) then some (.text s) else none
  | .elem name idAttr classes href cs =>
    if p (.elem name idAttr classes href cs) then
      some (.elem name idAttr classes href cs)
    else findFirst p cs
/-- First node matching the predicate in a forest, searching in document
(pre-)order: each node before its descendants, descendants before later
siblings.  Models `soup.find(...)`. -/
def findFirst (p : Node → Bool) : NodeList → Option Node
  | .nil => none
  | .cons n ns =>
    match findFirstNode p n with
    | some r => some r
    | none => findFirst p ns
end

mutual
/-- All matching nodes of the subtree rooted at one node, in document
(pre-)order. -/
def findAllNode (p : Node → Bool) : Node → List Node
  | .text s => if p (.text s) then [.text s] else []
  | .elem name idAttr classes href cs =>
    (if p (.elem name idAttr classes href cs) then
      [Node.elem name idAttr classes href cs]
    else []) ++ findAllP p cs
/-- All nodes matching the predicate in a forest, in document (pre-)order.
Models `soup.find_all(...)`. -/
def findAllP (p : Node → Bool) : NodeList → List Node
  | .nil => []
  | .cons n ns => findAllNode p n ++ findAllP p ns
end

/-- Predicate for `find(id=i)`: a tag whose id attribute equals `i`. -/
def hasId (i : String) : Node → Bool
  | .elem _ idAttr _ _ _ => idAttr = some i
  | .text _ => false

/-- Predicate for `find("div", class "mw-parser-output")`. -/
def isContentDiv : Node → Bool
  | .elem name _ classes _ _ => name = "div" && classes.contains "mw-parser-output"
  | .text _ => false

/-- Predicate for `find_all("a")`. -/
def isAnchor : Node → Bool
  | .elem name _ _ _ _ => name = "a"
  | .text _ => false

/-- Predicate for `find_all("span", class "toctext")`. -/
def isToctextSpan : Node → Bool
  | .elem name _ classes _ _ => name = "span" && classes.contains "toctext"
  | .text _ => false

/-- The href attribute of a node (`link.get("href")`; `none` when absent
or when the node is a text node). -/
def nodeHref : Node → Option String
  | .elem _ _ _ href _ => href
  | .text _ => none

/-- Model of Python `str.strip()`: remove whitespace from both ends. -/
def pyStrip (s : String) : String :=
  String.mk (((s.data.dropWhile Char.isWhitespace).reverse.dropWhile
    Char.isWhitespace).reverse)

/-- Model of `wiki_page_link_pattern = re.compile(r"/wiki/[^:#]*")` anchored
at both ends and tested with `.match`: the string is `/wiki/` followed by
characters none of which is a colon or a hash sign.  (The dollar anchor's
extra licence for one trailing newline adds nothing, since a newline is
itself matched by the bracket class.) -/
def wikiLinkPattern (s : String) : Bool :=
  match s.data with
  | '/' :: 'w' :: 'i' :: 'k' :: 'i' :: '/' :: rest =>
    rest.all (fun c => !(c == ':') && !(c == '#'))
  | _ => false

/-- The structured record built by `parse_page` for one page: the JSON
object later written by `store_page`. -/
structure PageData where
  url : String
  title : String
  paragraphs : List (String × String)
  links : List String
  table_of_contents : List String
deriving DecidableEq

/-- Content of the checkpoint file `crawl_progress.json` written by
`save_progress`. -/
structure Checkpoint where
  visited_urls : List String
  pages_processed : Nat
deriving DecidableEq

/-- The crawler's mutable state, together with an event log.  `url_queue`
is the `deque`; `visited_urls` models the Python `set` as its ordered
membership list; `pages_processed` and `max_pages` are as in the source.
`fetched` logs every URL passed to `download_page`, `stored` logs every
record successfully written by `store_page` (with its file name), and
`saves` logs every checkpoint written by `save_progress`. -/
structure CrawlState where
  url_queue : List String
  visited_urls : List String
  pages_processed : Nat
  max_pages : Nat
  fetched : List String
  stored : List (String × PageData)
  saves : List Checkpoint
deriving DecidableEq

/-- The external world the crawler runs against: `fetch url` is the result
of `requests.get` (`none` on transport error or non-2xx status, from
`raise_for_status`), `parseDoc` is `BeautifulSoup(content, "lxml")`
producing the document forest, `urljoin` is `urllib.parse.urljoin`, and
`write_ok` says whether writing the page file with the given file name
succeeds. -/
structure World where
  fetch : String → Option String
  parseDoc : String → NodeList
  urljoin : String → String → String
  write_ok : String → Bool

/-- Python `set.add`: append when absent, no change when present. -/
def setAdd (u : String) (l : List String) : List String :=
  if u ∈ l then l else l ++ [u]

/-- Checkpoint value written by `save_progress`: the visited list and the
current counter. -/
def mkCheckpoint (s : CrawlState) : Checkpoint :=
  { visited_urls := s.visited_urls, pages_processed := s.pages_processed }

/-- Model of `save_progress`: writes the checkpoint file (overwriting the
previous one; the last element of `saves` is the file's current content).
A write failure is logged and swallowed in the source; the write itself is
modelled as succeeding. -/
def save_progress (s : CrawlState) : CrawlState :=
  { s with saves := s.saves ++ [mkCheckpoint s] }

/-- Model of `load_progress`: `cp` is the parsed checkpoint file (`none`
when the file does not exist or reading/parsing raised, in which case the
state is unchanged).  On success the source runs
`visited_urls = set(data.get("visited_urls", []))` and
`pages_processed = len(visited_urls)`: the set built from the stored list
is its deduplication, and the counter is that set's size — the stored
`pages_processed` field is not consulted. -/
def load_progress (cp : Option Checkpoint) (s : CrawlState) : CrawlState :=
  match cp with
  | none => s
  | some c =>
    { s with visited_urls := c.visited_urls.dedup,
             pages_processed := c.visited_urls.dedup.length }

/-- Model of `Wiki_Crawler.__init__`: queue seeded with the start URL,
empty visited set, zero counter, then `load_progress` on the directory's
checkpoint (if any). -/
def initCrawler (start_url : String) (max_pages : Nat) (cp : Option Checkpoint) :
    CrawlState :=
  load_progress cp
    { url_queue := [start_url], visited_urls := [], pages_processed := 0,
      max_pages := max_pages, fetched := [], stored := [], saves := [] }

/-- File name substitution in `store_page`:
`re.sub` over the class of characters unsafe in file names replaces each
occurrence with an underscore. -/
def fileNameOf (title : String) : String :=
  String.mk (title.data.map (fun c =>
    if c ∈ ['<', '>', ':', '\"', '/', '\\', '|', '?', '*'] then '_' else c))

/-- Model of `store_page`: an empty (falsy) title returns at once with no
write and no increment; otherwise the record is written to the file named
after the sanitized title — on success the counter is incremented and the
write logged, on failure (the source logs and swallows the exception) the
state is unchanged.  In every case the function returns normally: the
crawl is never aborted. -/
def store_page (w : World) (s : CrawlState) (data : PageData) : CrawlState :=
  if data.title = "" then s
  else if w.write_ok (fileNameOf data.title) then
    { s with pages_processed := s.pages_processed + 1,
             stored := s.stored ++ [(fileNameOf data.title, data)] }
  else s

/-- Model of `extract_links`'s loop over `soup.find_all("a")`: keep each
anchor's href when present and matching the wiki-page pattern, resolve it
against the base URL, and append it unless already visited. -/
def collectLinks (w : World) (visited : List String) (base_url : String) :
    List Node → List String
  | [] => []
  | a :: rest =>
    match nodeHref a with
    | some href =>
      if wikiLinkPattern href then
        let full_url := w.urljoin base_url href
        if full_url ∈ visited then collectLinks w visited base_url rest
        else full_url :: collectLinks w visited base_url rest
      else collectLinks w visited base_url rest
    | none => collectLinks w visited base_url rest

/-- Model of `extract_links(soup, base_url)`: scan all anchors of the full
document in document order. -/
def extract_links (w : World) (visited : List String) (soup : NodeList)
    (base_url : String) : List String :=
  collectLinks w visited base_url (findAllP isAnchor soup)

/-- Model of the main-content walk inside `parse_page`: iterate over the
direct children of the content div, keeping a `current_section` that is
replaced by the stripped text of each `h2` element, and recording each `p`
element with non-empty stripped text as a `(section, text)` pair. -/
def extractParas (sec : String) : NodeList → List (String × String)
  | .nil => []
  | .cons (.text _) rest => extractParas sec rest
  | .cons (.elem name _ _ _ cs) rest =>
    if name = "h2" then extractParas (pyStrip (textList cs)) rest
    else if name = "p" ∧ pyStrip (textList cs) ≠ "" then
      (sec, pyStrip (textList cs)) :: extractParas sec rest
    else extractParas sec rest

/-- Model of `parse_page(url, content)`: parse the content, give up
(`none`, state untouched) when no element has id `firstHeading`; otherwise
build the record — stripped title text, the section/paragraph walk over
the content div's children (empty when there is no content div), the TOC
span texts (empty when there is no TOC element) — extract the outbound
links and extend the queue with them. -/
def parse_page (w : World) (s : CrawlState) (url content : String) :
    Option PageData × CrawlState :=
  match findFirst (hasId "firstHeading") (w.parseDoc content) with
  | none => (none, s)
  | some title_elem =>
    (some { url := url,
            title := pyStrip (nodeText title_elem),
            paragraphs :=
              match findFirst isContentDiv (w.parseDoc content) with
              | none => []
              | some content_div => extractParas "" (nodeChildren content_div),
            links := extract_links w s.visited_urls (w.parseDoc content) url,
            table_of_contents :=
              match findFirst (hasId "toc") (w.parseDoc content) with
              | none => []
              | some toc =>
                (findAllP isToctextSpan (nodeChildren toc)).map
                  (fun n => pyStrip (nodeText n)) },
     { s with url_queue :=
         s.url_queue ++ extract_links w s.visited_urls (w.parseDoc content) url })

/-- The part of the loop body after a successful non-empty download:
parse; when a record came back, store it and add the URL to the visited
set; otherwise fall through with the post-parse state. -/
def processFetched (w : World) (current_url content : String)
    (s : CrawlState) : CrawlState :=
  match parse_page w s current_url content with
  | (some pd, sq) =>
    { store_page w sq pd with
        visited_urls := setAdd current_url (store_page w sq pd).visited_urls }
  | (none, sq) => sq

/-- Tail of the loop body (reached unless a `continue` fired): checkpoint
when the counter is a multiple of 100. -/
def checkpointStep (s : CrawlState) : CrawlState :=
  if s.pages_processed % 100 = 0 then save_progress s else s

/-- One iteration of the `while` body in `crawl`: pop the head URL; skip
(`continue`) when already visited; log and perform the download
(`download_page` sleeps and then fetches; `none` models an exception from
the request, and an empty body is falsy so `if not content` also skips);
on success run parse/store/mark-visited and the periodic checkpoint. -/
def crawlIter (w : World) (s : CrawlState) : CrawlState :=
  match s.url_queue with
  | [] => s
  | current_url :: rest =>
    if current_url ∈ s.visited_urls then { s with url_queue := rest }
    else
      match w.fetch current_url with
      | none => { s with url_queue := rest,
                         fetched := s.fetched ++ [current_url] }
      | some content =>
        if content = "" then
          { s with url_queue := rest, fetched := s.fetched ++ [current_url] }
        else
          checkpointStep (processFetched w current_url content
            { s with url_queue := rest, fetched := s.fetched ++ [current_url] })

/-- The `while self.url_queue and self.pages_processed < self.max_pages`
loop, fuel-indexed: `crawlLoop w n s` runs at most `n` iterations,
stopping early when the loop condition fails. -/
def crawlLoop (w : World) : Nat → CrawlState → CrawlState
  | 0, s => s
  | n + 1, s =>
    if s.url_queue ≠ [] ∧ s.pages_processed < s.max_pages then
      crawlLoop w n (crawlIter w s)
    else s

/-- Model of `crawl()`: run the loop, then the `finally` block's
unconditional `save_progress` (which also runs on `KeyboardInterrupt`,
i.e. when the fuel models an external interruption). -/
def crawl (w : World) (fuel : Nat) (s : CrawlState) : CrawlState :=
  save_progress (crawlLoop w fuel s)

/-- Section label in effect after walking a list of sibling elements: the
stripped text of the last top-level `h2` among them, or the incoming label
when there is none.  Used to state how `extractParas` tracks the current
section across a split of the child list. -/
def sectionAfter (sec : String) : NodeList → String
  | .nil => sec
  | .cons (.text _) rest => sectionAfter sec rest
  | .cons (.elem name _ _ _ cs) rest =>
    if name = "h2" then sectionAfter (pyStrip (textList cs)) rest
    else sectionAfter sec rest

/-! ### Concrete documents, worlds and states used as test inputs -/

/-- A content page titled `A` whose body links to `/wiki/B` twice (two
anchor elements with the same href, as happens when one page cites another
twice). -/
def docSeed : NodeList := nlist
  [ .elem "h1" (some "firstHeading") [] none (nlist [.text "A"]),
    .elem "a" none [] (some "/wiki/B") .nil,
    .elem "a" none [] (some "/wiki/B") .nil ]

/-- A fetched page with no `firstHeading` element, though it does contain
an anchor matching the wiki content-page pattern. -/
def docNoHeading : NodeList := nlist
  [ .elem "p" none [] none (nlist [.text "no title here"]),
    .elem "a" none [] (some "/wiki/X") .nil ]

/-- A page whose `firstHeading` element exists but has empty text, so the
parsed record's title is the empty string. -/
def docEmptyHeading : NodeList := nlist
  [ .elem "h1" (some "firstHeading") [] none .nil ]

/-- The content div of `docSections`: paragraph `p0`, heading `History`,
paragraph `p1`, heading `Culture`, paragraph `p2`. -/
def divSections : Node :=
  .elem "div" none ["mw-parser-output"] none (nlist
    [ .elem "p" none [] none (nlist [.text "p0"]),
      .elem "h2" none [] none (nlist [.text "History"]),
      .elem "p" none [] none (nlist [.text "p1"]),
      .elem "h2" none [] none (nlist [.text "Culture"]),
      .elem "p" none [] none (nlist [.text "p2"]) ])

/-- The title heading of `docSections`. -/
def headingSections : Node :=
  .elem "h1" (some "firstHeading") [] none (nlist [.text "Title"])

/-- The two-headings/three-paragraphs example page of the specification. -/
def docSections : NodeList := nlist [headingSections, divSections]

/-- World in which URL `A` serves `docSeed` and `/wiki/B` serves a page
without a title heading; every write succeeds and hrefs resolve to
themselves. -/
def wRefetch : World :=
  { fetch := fun u => if u = "A" then some "pageA" else
      if u = "/wiki/B" then some "pageB" else none,
    parseDoc := fun c => if c = "pageA" then docSeed else docNoHeading,
    urljoin := fun _ href => href,
    write_ok := fun _ => true }

/-- World in which every URL serves the empty-titled page
`docEmptyHeading`. -/
def wEmptyTitle : World :=
  { fetch := fun _ => some "page",
    parseDoc := fun _ => docEmptyHeading,
    urljoin := fun _ href => href,
    write_ok := fun _ => true }

/-- World in which every URL serves the heading-free page
`docNoHeading`. -/
def wNoHeading : World :=
  { fetch := fun _ => some "page",
    parseDoc := fun _ => docNoHeading,
    urljoin := fun _ href => href,
    write_ok := fun _ => true }

/-- World in which every URL serves the sectioned example page
`docSections`. -/
def wSections : World :=
  { fetch := fun _ => some "page",
    parseDoc := fun _ => docSections,
    urljoin := fun _ href => href,
    write_ok := fun _ => true }

/-- World in which only URL `A` is reachable (it serves `docSeed`); every
other fetch fails with a transport error or bad status. -/
def wFetchFail : World :=
  { fetch := fun u => if u = "A" then some "pageA" else none,
    parseDoc := fun _ => docSeed,
    urljoin := fun _ href => href,
    write_ok := fun _ => true }

/-- World whose page-file writes always fail. -/
def wWriteFail : World :=
  { fetch := fun _ => some "page",
    parseDoc := fun _ => docSections,
    urljoin := fun _ href => href,
    write_ok := fun _ => false }

/-- A fresh crawler on seed `A` with budget 10 and no prior checkpoint. -/
def sBlank : CrawlState := initCrawler "A" 10 none

/-- A crawler resumed from a checkpoint that recorded `A` as visited. -/
def sResumedA : CrawlState := initCrawler "A" 10 (some ⟨["A"], 1⟩)

/-- A crawler resumed from a checkpoint with two visited URLs. -/
def sVisitedAB : CrawlState := initCrawler "A" 10 (some ⟨["A", "B"], 2⟩)

/-- A mid-crawl state whose frontier holds two pending URLs and whose
counter is 0. -/
def sTwoSeeds : CrawlState :=
  { url_queue := ["A", "B"], visited_urls := [], pages_processed := 0,
    max_pages := 10, fetched := [], stored := [], saves := [] }

/-- A page record with a title containing a filesystem-unsafe slash. -/
def dSample : PageData :=
  { url := "u", title := "a/b", paragraphs := [], links := [],
    table_of_contents := [] }

/-- A page record with an empty title. -/
def dEmptyTitle : PageData :=
  { url := "u", title := "", paragraphs := [], links := [],
    table_of_contents := [] }

/-! ### Component lemmas -/

lemma setAdd_mem_of_mem {u c : String} {l : List String} (h : u ∈ l) :
    u ∈ setAdd c l := by
  unfold setAdd
  split
  · exact h
  · exact List.mem_append_left _ h

lemma save_progress_frame (s : CrawlState) :
    (save_progress s).url_queue = s.url_queue ∧
    (save_progress s).visited_urls = s.visited_urls ∧
    (save_progress s).pages_processed = s.pages_processed ∧
    (save_progress s).fetched = s.fetched ∧
    (save_progress s).stored = s.stored ∧
    (save_progress s).max_pages = s.max_pages :=
  ⟨rfl, rfl, rfl, rfl, rfl, rfl⟩

lemma checkpointStep_frame (s : CrawlState) :
    (checkpointStep s).url_queue = s.url_queue ∧
    (checkpointStep s).visited_urls = s.visited_urls ∧
    (checkpointStep s).pages_processed = s.pages_processed ∧
    (checkpointStep s).fetched = s.fetched ∧
    (checkpointStep s).stored = s.stored ∧
    (checkpointStep s).max_pages = s.max_pages := by
  unfold checkpointStep
  split <;> exact ⟨rfl, rfl, rfl, rfl, rfl, rfl⟩

lemma checkpointStep_saves (s : CrawlState) :
    (checkpointStep s).saves = s.saves ∨
    ((checkpointStep s).saves = s.saves ++ [mkCheckpoint s] ∧
      s.pages_processed % 100 = 0) := by
  unfold checkpointStep
  split
  · exact Or.inr ⟨rfl, by assumption⟩
  · exact Or.inl rfl

lemma checkpointStep_saves_of_mod (s : CrawlState)
    (h : s.pages_processed % 100 = 0) :
    (checkpointStep s).saves = s.saves ++ [mkCheckpoint s] := by
  unfold checkpointStep
  rw [if_pos h]
  rfl

lemma store_page_frame (w : World) (s : CrawlState) (data : PageData) :
    (store_page w s data).url_queue = s.url_queue ∧
    (store_page w s data).visited_urls = s.visited_urls ∧
    (store_page w s data).fetched = s.fetched ∧
    (store_page w s data).saves = s.saves ∧
    (store_page w s data).max_pages = s.max_pages := by
  unfold store_page
  split
  · exact ⟨rfl, rfl, rfl, rfl, rfl⟩
  · split <;> exact ⟨rfl, rfl, rfl, rfl, rfl⟩

lemma store_page_count (w : World) (s : CrawlState) (data : PageData) :
    (store_page w s data).pages_processed + s.stored.length =
      s.pages_processed + (store_page w s data).stored.length := by
  unfold store_page
  split
  · rfl
  · split
    · simp only [List.length_append, List.length_cons, List.length_nil]
      omega
    · rfl

lemma parse_page_frame (w : World) (s : CrawlState) (url content : String) :
    ((parse_page w s url content).2).visited_urls = s.visited_urls ∧
    ((parse_page w s url content).2).pages_processed = s.pages_processed ∧
    ((parse_page w s url content).2).stored = s.stored ∧
    ((parse_page w s url content).2).fetched = s.fetched ∧
    ((parse_page w s url content).2).saves = s.saves ∧
    ((parse_page w s url content).2).max_pages = s.max_pages := by
  unfold parse_page
  cases findFirst (hasId "firstHeading") (w.parseDoc content) <;>
    exact ⟨rfl, rfl, rfl, rfl, rfl, rfl⟩

lemma processFetched_chars (w : World) (c content : String) (s : CrawlState) :
    (processFetched w c content s).fetched = s.fetched ∧
    (processFetched w c content s).saves = s.saves ∧
    ((processFetched w c content s).pages_processed + s.stored.length =
      s.pages_processed + (processFetched w c content s).stored.length) ∧
    (∀ u, u ∈ s.visited_urls → u ∈ (processFetched w c content s).visited_urls) := by
  unfold processFetched
  rcases h : parse_page w s c content with ⟨pd, sq⟩
  have hf := parse_page_frame w s c content
  rw [h] at hf
  cases pd with
  | none =>
    exact ⟨hf.2.2.2.1, hf.2.2.2.2.1, by rw [hf.2.1, hf.2.2.1],
      fun u hu => hf.1 ▸ hu⟩
  | some rec =>
    have hsf := store_page_frame w sq rec
    have hsc := store_page_count w sq rec
    refine ⟨by simpa [hsf.2.2.1] using hf.2.2.2.1,
      by simpa [hsf.2.2.2.1] using hf.2.2.2.2.1, ?_, ?_⟩
    · simp only
      rw [hf.2.1] at hsc
      rw [hf.2.2.1] at hsc
      exact hsc
    · intro u hu
      simp only
      exact setAdd_mem_of_mem (hsf.2.1 ▸ hf.1 ▸ hu)

lemma crawlIter_visited_step (w : World) (s : CrawlState) (u : String)
    (h : u ∈ s.visited_urls) :
    (crawlIter w s).fetched.count u = s.fetched.count u ∧
    u ∈ (crawlIter w s).visited_urls := by
  unfold crawlIter
  rcases hq : s.url_queue with _ | ⟨c, rest⟩
  · exact ⟨rfl, h⟩
  · dsimp only
    by_cases hv : c ∈ s.visited_urls
    · rw [if_pos hv]
      exact ⟨rfl, h⟩
    · rw [if_neg hv]
      have hcu : c ≠ u := fun hc => hv (hc ▸ h)
      have hcount : (s.fetched ++ [c]).count u = s.fetched.count u := by
        rw [List.count_append]
        simp [List.count_singleton', hcu]
      rcases hfe : w.fetch c with _ | content
      · exact ⟨hcount, h⟩
      · dsimp only
        by_cases hce : content = ""
        · rw [if_pos hce]
          exact ⟨hcount, h⟩
        · rw [if_neg hce]
          have hpc := processFetched_chars w c content
            { s with url_queue := rest, fetched := s.fetched ++ [c] }
          have hcf := checkpointStep_frame (processFetched w c content
            { s with url_queue := rest, fetched := s.fetched ++ [c] })
          constructor
          · rw [hcf.2.2.2.1, hpc.1]
            exact hcount
          · rw [hcf.2.1]
            exact hpc.2.2.2 u h

lemma crawlIter_count_stored (w : World) (s : CrawlState) :
    (crawlIter w s).pages_processed + s.stored.length =
      s.pages_processed + (crawlIter w s).stored.length := by
  unfold crawlIter
  rcases hq : s.url_queue with _ | ⟨c, rest⟩
  · rfl
  · dsimp only
    by_cases hv : c ∈ s.visited_urls
    · rw [if_pos hv]
    · rw [if_neg hv]
      rcases hfe : w.fetch c with _ | content
      · rfl
      · dsimp only
        by_cases hce : content = ""
        · rw [if_pos hce]
        · rw [if_neg hce]
          have hpc := (processFetched_chars w c content
            { s with url_queue := rest, fetched := s.fetched ++ [c] }).2.2.1
          have hcf := checkpointStep_frame (processFetched w c content
            { s with url_queue := rest, fetched := s.fetched ++ [c] })
          rw [hcf.2.2.1, hcf.2.2.2.2.1]
          exact hpc

lemma extractParas_append : ∀ (sec : String) (xs ys : NodeList),
    extractParas sec (nlAppend xs ys) =
      extractParas sec xs ++ extractParas (sectionAfter sec xs) ys
  | sec, .nil, ys => by
    simp only [nlAppend, extractParas, sectionAfter, List.nil_append]
  | sec, .cons (.text t) xs, ys => by
    simp only [nlAppend, extractParas, sectionAfter]
    exact extractParas_append sec xs ys
  | sec, .cons (.elem name i c h cs) xs, ys => by
    simp only [nlAppend, extractParas, sectionAfter]
    by_cases hn : name = "h2"
    · simp only [if_pos hn]
      exact extractParas_append (pyStrip (textList cs)) xs ys
    · simp only [if_neg hn]
      by_cases hp : name = "p" ∧ pyStrip (textList cs) ≠ ""
      · simp only [if_pos hp, List.cons_append]
        rw [extractParas_append sec xs ys]
      · simp only [if_neg hp]
        exact extractParas_append sec xs ys

lemma collectLinks_eq (w : World) (visited : List String) (base : String) :
    ∀ l : List Node, collectLinks w visited base l =
      (((l.filterMap nodeHref).filter wikiLinkPattern).map
        (w.urljoin base)).filter (fun u => decide (u ∉ visited))
  | [] => rfl
  | a :: rest => by
    simp only [collectLinks]
    rcases h : nodeHref a with _ | href
    · simp only [List.filterMap_cons, h]
      exact collectLinks_eq w visited base rest
    · simp only [List.filterMap_cons, h]
      by_cases hp : wikiLinkPattern href
      · by_cases hv : w.urljoin base href ∈ visited
        · simp [hp, hv, collectLinks_eq w visited base rest]
        · simp [hp, hv, collectLinks_eq w visited base rest]
      · simp [hp, collectLinks_eq w visited base rest]

lemma setAdd_nodup {u : String} {l : List String} (h : l.Nodup) :
    (setAdd u l).Nodup := by
  unfold setAdd
  split
  · exact h
  · rename_i hu
    simp [List.nodup_append, h, hu]

lemma processFetched_visited (w : World) (c content : String) (s : CrawlState) :
    (processFetched w c content s).visited_urls = s.visited_urls ∨
    (processFetched w c content s).visited_urls = setAdd c s.visited_urls := by
  unfold processFetched
  rcases h : parse_page w s c content with ⟨pd, sq⟩
  have hf := parse_page_frame w s c content
  rw [h] at hf
  cases pd with
  | none => exact Or.inl hf.1
  | some rec =>
    have hsf := store_page_frame w sq rec
    right
    simp only
    rw [hsf.2.1, hf.1]

lemma crawlIter_nodup (w : World) (s : CrawlState)
    (h : s.visited_urls.Nodup) : (crawlIter w s).visited_urls.Nodup := by
  unfold crawlIter
  rcases hq : s.url_queue with _ | ⟨c, rest⟩
  · exact h
  · dsimp only
    by_cases hv : c ∈ s.visited_urls
    · rw [if_pos hv]
      exact h
    · rw [if_neg hv]
      rcases hfe : w.fetch c with _ | content
      · exact h
      · dsimp only
        by_cases hce : content = ""
        · rw [if_pos hce]
          exact h
        · rw [if_neg hce]
          have hcf := checkpointStep_frame (processFetched w c content
            { s with url_queue := rest, fetched := s.fetched ++ [c] })
          rw [hcf.2.1]
          rcases processFetched_visited w c content
            { s with url_queue := rest, fetched := s.fetched ++ [c] } with
            hpv | hpv <;> rw [hpv]
          · exact h
          · exact setAdd_nodup h

lemma crawlLoop_nodup (w : World) (n : Nat) (s : CrawlState)
    (h : s.visited_urls.Nodup) : (crawlLoop w n s).visited_urls.Nodup := by
  induction n generalizing s with
  | zero => exact h
  | succ n ih =>
    unfold crawlLoop
    split
    · exact ih (crawlIter w s) (crawlIter_nodup w s h)
    · exact h

lemma crawlLoop_visited (w : World) (n : Nat) (s : CrawlState) (u : String)
    (h : u ∈ s.visited_urls) :
    (crawlLoop w n s).fetched.count u = s.fetched.count u ∧
    u ∈ (crawlLoop w n s).visited_urls := by
  induction n generalizing s with
  | zero => exact ⟨rfl, h⟩
  | succ n ih =>
    unfold crawlLoop
    split
    · have hstep := crawlIter_visited_step w s u h
      have hrec := ih (crawlIter w s) hstep.2
      exact ⟨hrec.1.trans hstep.1, hrec.2⟩
    · exact ⟨rfl, h⟩

lemma crawlLoop_count_stored (w : World) (n : Nat) (s : CrawlState) :
    (crawlLoop w n s).pages_processed + s.stored.length =
      s.pages_processed + (crawlLoop w n s).stored.length := by
  induction n generalizing s with
  | zero => rfl
  | succ n ih =>
    unfold crawlLoop
    split
    · have hstep := crawlIter_count_stored w s
      have hrec := ih (crawlIter w s)
      omega
    · rfl

/-! ### Claims -/

/-- C1, counterexample: the claim that no URL is ever downloaded twice in
one crawl fails.  In `wRefetch`, seed `A` links to `/wiki/B` twice and
`/wiki/B` serves a page without a title heading; since a URL is added to
the visited set only after a successful parse, the second queued copy of
`/wiki/B` passes the visited check and is downloaded again: after the full
run (frontier empty) the fetch log holds `/wiki/B` twice. -/
theorem C1_counterexample :
    (crawl wRefetch 3 (initCrawler "A" 10 none)).fetched.count "/wiki/B" = 2 ∧
    (crawl wRefetch 3 (initCrawler "A" 10 none)).url_queue = [] := by
  constructor <;> decide

/-- C1, amended: a URL that is in the Visited Set is never downloaded
again for the rest of the crawl (the visited check between dequeue and
fetch guarantees this); only URLs whose fetch or parse failed — which are
never added to the Visited Set — can be downloaded more than once. -/
theorem C1_no_refetch_of_visited (w : World) (n : Nat) (s : CrawlState)
    (u : String) (h : u ∈ s.visited_urls) :
    (crawl w n s).fetched.count u = s.fetched.count u ∧
    u ∈ (crawl w n s).visited_urls :=
  crawlLoop_visited w n s u h

/-- C1, witness: a crawler resumed with `A` already visited never fetches
`A` again. -/
theorem C1_no_refetch_witness :
    (crawl wRefetch 5 sResumedA).fetched.count "A" =
      sResumedA.fetched.count "A" ∧
    "A" ∈ (crawl wRefetch 5 sResumedA).visited_urls :=
  C1_no_refetch_of_visited wRefetch 5 sResumedA "A" (by decide)

/-- C2, counterexample: in `wEmptyTitle` the single fetched page parses
but its title is empty, so `store_page` writes nothing, yet the URL is
added to the visited set and checkpointed.  The run writes 0 records and
its checkpoint file ends as `visited_urls = [A], pages_processed = 0`; a
crawler loading that checkpoint starts with `pages_processed = 1`, not the
0 records ever written by the crawl. -/
theorem C2_counterexample :
    (crawl wEmptyTitle 1 (initCrawler "A" 10 none)).stored.length = 0 ∧
    (crawl wEmptyTitle 1 (initCrawler "A" 10 none)).saves.getLast? =
      some ⟨["A"], 0⟩ ∧
    (initCrawler "A" 10 (some ⟨["A"], 0⟩)).pages_processed = 1 := by
  refine ⟨by decide, by decide, by decide⟩

/-- C2, amended: within one run of the loop the counter grows by exactly
the number of records successfully written in that run; after loading a
checkpoint, however, the counter is reset to the size of the loaded
visited set, which can differ from the number of records ever written. -/
theorem C2_counter_tracks_stores (w : World) (n : Nat) (s : CrawlState) :
    (crawl w n s).pages_processed + s.stored.length =
      s.pages_processed + (crawl w n s).stored.length :=
  crawlLoop_count_stored w n s

/-- C3: when a title heading and a content div are present, the record's
paragraph list is exactly the section walk over the content div's direct
children (current section starts empty); the walk distributes over
concatenation with the section label carried across (so each paragraph is
recorded under the label of the last `h2` before it); a lone non-empty
paragraph yields one `(section, text)` pair and a lone heading yields
nothing; and on the History/Culture example page the result is the
specified three pairs. -/
theorem C3_paragraph_walk :
    (∀ (w : World) (s : CrawlState) (url content : String) (t d : Node),
      findFirst (hasId "firstHeading") (w.parseDoc content) = some t →
      findFirst isContentDiv (w.parseDoc content) = some d →
      ∃ pd, (parse_page w s url content).1 = some pd ∧
        pd.paragraphs = extractParas "" (nodeChildren d)) ∧
    (∀ (sec : String) (xs ys : NodeList),
      extractParas sec (nlAppend xs ys) =
        extractParas sec xs ++ extractParas (sectionAfter sec xs) ys) ∧
    (∀ (sec : String) (i : Option String) (cl : List String)
        (hr : Option String) (cs : NodeList),
      extractParas sec (.cons (.elem "p" i cl hr cs) .nil) =
        if pyStrip (textList cs) ≠ "" then [(sec, pyStrip (textList cs))]
        else []) ∧
    (∀ (sec : String) (i : Option String) (cl : List String)
        (hr : Option String) (cs : NodeList),
      extractParas sec (.cons (.elem "h2" i cl hr cs) .nil) = []) ∧
    ((parse_page wSections sBlank "u" "page").1.map
        (fun pd => pd.paragraphs) =
      some [("", "p0"), ("History", "p1"), ("Culture", "p2")]) := by
  refine ⟨?_, extractParas_append, ?_, ?_, by decide⟩
  · intro w s url content t d ht hd
    unfold parse_page
    rw [ht]
    dsimp only
    rw [hd]
    exact ⟨_, rfl, rfl⟩
  · intro sec i cl hr cs
    by_cases hs : pyStrip (textList cs) ≠ "" <;> simp [extractParas, hs]
  · intro sec i cl hr cs
    simp [extractParas]

/-- C3, witness: on the example page the paragraph list is
`[(empty, p0), (History, p1), (Culture, p2)]`. -/
theorem C3_paragraph_walk_witness :
    ∃ pd, (parse_page wSections sBlank "u" "page").1 = some pd ∧
      pd.paragraphs = [("", "p0"), ("History", "p1"), ("Culture", "p2")] := by
  obtain ⟨pd, h1, h2⟩ := C3_paragraph_walk.1 wSections sBlank "u" "page"
    headingSections divSections rfl rfl
  exact ⟨pd, h1, h2.trans (by decide)⟩

/-- C4: the link list returned by `extract_links` is exactly the hrefs of
all anchors of the document, in document order, filtered by the wiki
content-page pattern, resolved against the base URL, and with URLs already
in the visited set excluded. -/
theorem C4_extract_links_spec (w : World) (visited : List String)
    (soup : NodeList) (base_url : String) :
    extract_links w visited soup base_url =
      ((((findAllP isAnchor soup).filterMap nodeHref).filter
        wikiLinkPattern).map (w.urljoin base_url)).filter
          (fun u => decide (u ∉ visited)) :=
  collectLinks_eq w visited base_url (findAllP isAnchor soup)

/-- C5: a page with no `firstHeading` element makes `parse_page` return
`none` with the state untouched, and the corresponding loop iteration
stores no record, adds nothing to the frontier (the head URL is only
popped) and leaves the visited set unchanged — even when the document
contains anchors matching the link pattern. -/
theorem C5_no_title_page_ignored :
    (∀ (w : World) (s : CrawlState) (url content : String),
      findFirst (hasId "firstHeading") (w.parseDoc content) = none →
      parse_page w s url content = (none, s)) ∧
    (∀ (w : World) (s : CrawlState) (u content : String) (rest : List String),
      s.url_queue = u :: rest → u ∉ s.visited_urls →
      w.fetch u = some content → content ≠ "" →
      findFirst (hasId "firstHeading") (w.parseDoc content) = none →
      (crawlIter w s).stored = s.stored ∧
      (crawlIter w s).url_queue = rest ∧
      (crawlIter w s).visited_urls = s.visited_urls) := by
  have hparse : ∀ (w : World) (s : CrawlState) (url content : String),
      findFirst (hasId "firstHeading") (w.parseDoc content) = none →
      parse_page w s url content = (none, s) := by
    intro w s url content h
    unfold parse_page
    rw [h]
  refine ⟨hparse, ?_⟩
  intro w s u content rest hq hv hf hc ht
  have hred : crawlIter w s = checkpointStep (processFetched w u content
      { s with url_queue := rest, fetched := s.fetched ++ [u] }) := by
    unfold crawlIter
    rw [hq]
    dsimp only
    rw [if_neg hv, hf]
    dsimp only
    rw [if_neg hc]
  have hpf : processFetched w u content
      { s with url_queue := rest, fetched := s.fetched ++ [u] } =
      { s with url_queue := rest, fetched := s.fetched ++ [u] } := by
    unfold processFetched
    rw [hparse w _ u content ht]
  rw [hred, hpf]
  have hcf := checkpointStep_frame
    { s with url_queue := rest, fetched := s.fetched ++ [u] }
  exact ⟨hcf.2.2.2.2.1, hcf.1, hcf.2.1⟩

/-- C5, witness: in `wNoHeading` the fetched page has no title heading;
parsing yields `none`, the iteration leaves records, frontier and visited
set unchanged (beyond the pop), although the document carries the
pattern-matching link `/wiki/X`. -/
theorem C5_no_title_witness :
    parse_page wNoHeading sBlank "A" "page" = (none, sBlank) ∧
    (crawlIter wNoHeading sBlank).stored = sBlank.stored ∧
    (crawlIter wNoHeading sBlank).url_queue = [] ∧
    (crawlIter wNoHeading sBlank).visited_urls = sBlank.visited_urls ∧
    extract_links wNoHeading [] docNoHeading "A" = ["/wiki/X"] := by
  have h2 := C5_no_title_page_ignored.2 wNoHeading sBlank "A" "page" []
    (by decide) (by decide) rfl (by decide) rfl
  exact ⟨C5_no_title_page_ignored.1 wNoHeading sBlank "A" "page" rfl,
    h2.1, h2.2.1, h2.2.2, by decide⟩

/-- C6, counterexample: the claim that a URL whose fetch fails is not
retried in the same run fails.  In `wFetchFail`, `/wiki/B` always fails to
download, but seed `A` enqueues it twice; since a failed URL is not added
to the visited set, the crawler attempts to download `/wiki/B` a second
time in the same run. -/
theorem C6_counterexample :
    wFetchFail.fetch "/wiki/B" = none ∧
    (crawl wFetchFail 3 (initCrawler "A" 10 none)).fetched.count
      "/wiki/B" = 2 := by
  exact ⟨rfl, by decide⟩

/-- C6, amended: an iteration whose fetch fails changes nothing except
popping the URL from the frontier (and logging the download attempt): the
visited set, record store, counter and checkpoints are untouched and the
orchestrator does not re-enqueue the URL — though the URL can be fetched
again later if it already sits in the frontier a second time. -/
theorem C6_fetch_failure_effect (w : World) (s : CrawlState) (u : String)
    (rest : List String) (hq : s.url_queue = u :: rest)
    (hv : u ∉ s.visited_urls) (hf : w.fetch u = none) :
    crawlIter w s =
      { s with url_queue := rest, fetched := s.fetched ++ [u] } := by
  unfold crawlIter
  rw [hq]
  dsimp only
  rw [if_neg hv, hf]

/-- C6, witness: one failing iteration on a fresh crawler seeded with an
unreachable URL pops the frontier and changes nothing else. -/
theorem C6_fetch_failure_witness :
    crawlIter wFetchFail (initCrawler "/wiki/B" 10 none) =
      { (initCrawler "/wiki/B" 10 none) with
          url_queue := [], fetched := ["/wiki/B"] } := by
  have h := C6_fetch_failure_effect wFetchFail (initCrawler "/wiki/B" 10 none)
    "/wiki/B" [] (by decide) (by decide) rfl
  rw [h]
  decide

/-- C7: `store_page` on an empty title returns the state unchanged (no
write, no increment); on a non-empty title with a successful write it
increments the counter by one and appends the record under the file name
derived from the title by replacing each filesystem-unsafe character with
an underscore; on a failed write it returns the state unchanged.  In all
cases it returns normally, never aborting the crawl. -/
theorem C7_store_page_behavior (w : World) (s : CrawlState)
    (data : PageData) :
    (data.title = "" → store_page w s data = s) ∧
    (data.title ≠ "" → w.write_ok (fileNameOf data.title) = true →
      store_page w s data =
        { s with pages_processed := s.pages_processed + 1,
                 stored := s.stored ++ [(fileNameOf data.title, data)] }) ∧
    (data.title ≠ "" → w.write_ok (fileNameOf data.title) = false →
      store_page w s data = s) := by
  refine ⟨fun h => ?_, fun h hw => ?_, fun h hw => ?_⟩
  · unfold store_page
    rw [if_pos h]
  · unfold store_page
    rw [if_neg h, if_pos hw]
  · unfold store_page
    rw [if_neg h, if_neg (by simp [hw])]

/-- C7, witness: an empty title stores nothing; the title `a/b` is stored
once under file name `a_b`; a failing write leaves the state unchanged. -/
theorem C7_store_page_witness :
    store_page wRefetch sBlank dEmptyTitle = sBlank ∧
    store_page wRefetch sBlank dSample =
      { sBlank with pages_processed := 1, stored := [("a_b", dSample)] } ∧
    store_page wWriteFail sBlank dSample = sBlank := by
  refine ⟨(C7_store_page_behavior wRefetch sBlank dEmptyTitle).1 rfl, ?_,
    (C7_store_page_behavior wWriteFail sBlank dSample).2.2 (by decide) rfl⟩
  have h := (C7_store_page_behavior wRefetch sBlank dSample).2.1 (by decide) rfl
  rw [h]
  decide

/-- C8: saving a checkpoint and loading it back yields a visited set equal
to the saved one: literally its deduplication, hence the same members, and
the same list whenever the saved set had no duplicates — which holds for
every state the crawler produces, since a crawl run preserves
duplicate-freeness of the visited set. -/
theorem C8_checkpoint_roundtrip (s s2 : CrawlState) :
    ((load_progress (some (mkCheckpoint s)) s2).visited_urls =
      s.visited_urls.dedup) ∧
    (∀ u, u ∈ (load_progress (some (mkCheckpoint s)) s2).visited_urls ↔
      u ∈ s.visited_urls) ∧
    (s.visited_urls.Nodup →
      (load_progress (some (mkCheckpoint s)) s2).visited_urls =
        s.visited_urls) ∧
    (∀ (w : World) (n : Nat) (s3 : CrawlState), s3.visited_urls.Nodup →
      (crawl w n s3).visited_urls.Nodup) := by
  refine ⟨rfl, fun u => ?_, fun h => ?_,
    fun w n s3 h => crawlLoop_nodup w n s3 h⟩
  · simp [load_progress, mkCheckpoint, List.mem_dedup]
  · simp [load_progress, mkCheckpoint, List.dedup_eq_self.mpr h]

/-- C8, witness: a state with visited set `[A, B]` round-trips through
save and load unchanged. -/
theorem C8_checkpoint_roundtrip_witness :
    (load_progress (some (mkCheckpoint sVisitedAB)) sBlank).visited_urls =
      sVisitedAB.visited_urls ∧
    ("A" ∈ (load_progress (some (mkCheckpoint sVisitedAB)) sBlank).visited_urls
      ↔ "A" ∈ sVisitedAB.visited_urls) :=
  ⟨(C8_checkpoint_roundtrip sVisitedAB sBlank).2.2.1 (by decide),
   (C8_checkpoint_roundtrip sVisitedAB sBlank).2.1 "A"⟩

/-- C9, counterexample: the claim that consecutive in-loop checkpoints
have exactly 100 stored pages between them fails: two iterations that
fetch pages without a title heading while the counter is 0 each write a
checkpoint, with zero pages stored between the two. -/
theorem C9_counterexample :
    (crawlLoop wNoHeading 2 sTwoSeeds).saves.length = 2 ∧
    (crawlLoop wNoHeading 2 sTwoSeeds).stored.length = 0 := by
  constructor <;> decide

/-- C9, amended: a loop iteration writes a checkpoint exactly when it
completes a successful non-empty fetch and the counter after the store
attempt is a multiple of 100 — and then exactly one.  The branches are
exhaustive: an iteration writes at most one checkpoint and only with the
counter a multiple of 100; an empty frontier, a visited-skip, a failed
fetch, an empty body, and a completed fetch ending off a multiple of 100
all write no checkpoint; a completed fetch ending on a multiple of 100
(including a recordless one at counter 0) writes exactly one. -/
theorem C9_checkpoint_condition (w : World) (s : CrawlState) :
    ((crawlIter w s).saves = s.saves ∨
      (∃ c, (crawlIter w s).saves = s.saves ++ [c] ∧
        (crawlIter w s).pages_processed % 100 = 0)) ∧
    (s.url_queue = [] → crawlIter w s = s) ∧
    (∀ (u : String) (rest : List String),
      s.url_queue = u :: rest → u ∈ s.visited_urls →
      (crawlIter w s).saves = s.saves) ∧
    (∀ (u : String) (rest : List String),
      s.url_queue = u :: rest → u ∉ s.visited_urls →
      w.fetch u = none → (crawlIter w s).saves = s.saves) ∧
    (∀ (u : String) (rest : List String),
      s.url_queue = u :: rest → u ∉ s.visited_urls →
      w.fetch u = some "" → (crawlIter w s).saves = s.saves) ∧
    (∀ (u content : String) (rest : List String),
      s.url_queue = u :: rest → u ∉ s.visited_urls →
      w.fetch u = some content → content ≠ "" →
      (crawlIter w s).pages_processed % 100 ≠ 0 →
      (crawlIter w s).saves = s.saves) ∧
    (∀ (u content : String) (rest : List String),
      s.url_queue = u :: rest → u ∉ s.visited_urls →
      w.fetch u = some content → content ≠ "" →
      (crawlIter w s).pages_processed % 100 = 0 →
      (crawlIter w s).saves.length = s.saves.length + 1) := by
  refine ⟨?_, ?_, ?_, ?_, ?_, ?_, ?_⟩
  · unfold crawlIter
    rcases hq : s.url_queue with _ | ⟨c, rest⟩
    · exact Or.inl rfl
    · dsimp only
      by_cases hv : c ∈ s.visited_urls
      · rw [if_pos hv]
        exact Or.inl rfl
      · rw [if_neg hv]
        rcases hfe : w.fetch c with _ | content
        · exact Or.inl rfl
        · dsimp only
          by_cases hce : content = ""
          · rw [if_pos hce]
            exact Or.inl rfl
          · rw [if_neg hce]
            have hxs : (processFetched w c content
                { s with url_queue := rest,
                         fetched := s.fetched ++ [c] }).saves = s.saves :=
              (processFetched_chars w c content _).2.1
            rcases checkpointStep_saves (processFetched w c content
                { s with url_queue := rest,
                         fetched := s.fetched ++ [c] }) with hcs | ⟨hcs, hmod⟩
            · exact Or.inl (hcs.trans hxs)
            · refine Or.inr ⟨_, by rw [hcs, hxs], ?_⟩
              rw [(checkpointStep_frame _).2.2.1]
              exact hmod
  · intro hq
    unfold crawlIter
    rw [hq]
  · intro u rest hq hv
    unfold crawlIter
    rw [hq]
    dsimp only
    rw [if_pos hv]
  · intro u rest hq hv hf
    unfold crawlIter
    rw [hq]
    dsimp only
    rw [if_neg hv, hf]
  · intro u rest hq hv hf
    unfold crawlIter
    rw [hq]
    dsimp only
    rw [if_neg hv, hf]
    rfl
  · intro u content rest hq hv hf hc hmod
    have hred : crawlIter w s = checkpointStep (processFetched w u content
        { s with url_queue := rest, fetched := s.fetched ++ [u] }) := by
      unfold crawlIter
      rw [hq]
      dsimp only
      rw [if_neg hv, hf]
      dsimp only
      rw [if_neg hc]
    rw [hred] at hmod ⊢
    have hmodx : (processFetched w u content
        { s with url_queue := rest,
                 fetched := s.fetched ++ [u] }).pages_processed % 100 ≠ 0 := by
      rw [← (checkpointStep_frame _).2.2.1]
      exact hmod
    unfold checkpointStep
    rw [if_neg hmodx]
    exact (processFetched_chars w u content _).2.1
  · intro u content rest hq hv hf hc hmod
    have hred : crawlIter w s = checkpointStep (processFetched w u content
        { s with url_queue := rest, fetched := s.fetched ++ [u] }) := by
      unfold crawlIter
      rw [hq]
      dsimp only
      rw [if_neg hv, hf]
      dsimp only
      rw [if_neg hc]
    rw [hred] at hmod ⊢
    have hmodx : (processFetched w u content
        { s with url_queue := rest,
                 fetched := s.fetched ++ [u] }).pages_processed % 100 = 0 := by
      rw [← (checkpointStep_frame _).2.2.1]
      exact hmod
    rw [checkpointStep_saves_of_mod _ hmodx]
    have hxs : (processFetched w u content
        { s with url_queue := rest,
                 fetched := s.fetched ++ [u] }).saves = s.saves :=
      (processFetched_chars w u content _).2.1
    simp [hxs]

/-- C9, witness: a recordless iteration (empty page title) at counter 0
writes one checkpoint. -/
theorem C9_checkpoint_condition_witness :
    (crawlIter wEmptyTitle sBlank).saves.length =
      sBlank.saves.length + 1 :=
  (C9_checkpoint_condition wEmptyTitle sBlank).2.2.2.2.2.2 "A" "page" []
    (by decide) (by decide) rfl (by decide) (by decide)

/-- C10: after a successful checkpoint load the counter equals the size
of the loaded visited set — a duplicate-free list, so its length is the
set's cardinality — and both the loaded set and the counter are the same
whatever `pages_processed` value was stored in the checkpoint file. -/
theorem C10_load_sets_counter_to_card (vs : List String) (pp pp2 : Nat)
    (s s2 : CrawlState) :
    (load_progress (some ⟨vs, pp⟩) s).pages_processed =
      (load_progress (some ⟨vs, pp⟩) s).visited_urls.length ∧
    (load_progress (some ⟨vs, pp⟩) s).visited_urls.Nodup ∧
    (load_progress (some ⟨vs, pp⟩) s).visited_urls =
      (load_progress (some ⟨vs, pp2⟩) s2).visited_urls ∧
    (load_progress (some ⟨vs, pp⟩) s).pages_processed =
      (load_progress (some ⟨vs, pp2⟩) s2).pages_processed :=
  ⟨rfl, List.nodup_dedup vs, rfl, rfl⟩

end WikiCrawler
